import Mathlib

/-!
Shallow embedding of `src/net.rs` from `libsrt-rs`: a capability-typed socket
layer over an external SRT transport engine (`libsrt_sys`).

The transport engine is out of scope for the repository (it is the external
collaborator), so it is modelled as an abstract oracle: a structure `Engine`
of pure fallible functions giving the result of each engine primitive.  Each
wrapper operation from `net.rs` is translated into a Lean function over that
oracle; operations whose behaviour the spec describes in terms of *which*
engine calls are issued (and in which order) additionally return the list of
`EngineCall`s they performed, in order, so that properties such as "sets both
directions nonblocking before issuing connect" or "performs no further engine
call" become statements about that trace.
-/

namespace LibSrt

/-- Socket addresses are opaque to this layer; modelled as `Nat`. -/
abbrev SockAddr := Nat

/-- The engine-owned transport handle (`libsrt_sys::Socket`); opaque, modelled
as `Nat`. -/
abbrev Socket := Nat

/-- Mirrors the distinction the code makes on `io::ErrorKind`: the would-block
condition versus every other kind. -/
inductive IOErrorKind where
  | wouldBlock
  | other (code : Nat)
deriving DecidableEq, Repr

/-- An `io::Error`: its kind plus a payload, so that two errors of the same
kind are still distinguishable (propagation "unchanged" is about the whole
error value, not just its kind). -/
structure IOError where
  kind : IOErrorKind
  payload : Nat
deriving DecidableEq, Repr

/-- One call into the transport engine, as issued by the wrapper layer. -/
inductive EngineCall where
  | init
  | socketNew (addr : SockAddr)
  | setSendNonblocking (sock : Socket) (flag : Bool)
  | setRecvNonblocking (sock : Socket) (flag : Bool)
  | connect (sock : Socket) (addr : SockAddr)
  | bind (sock : Socket) (addr : SockAddr)
  | listen (sock : Socket) (backlog : Nat)
  | accept (sock : Socket)
deriving DecidableEq, Repr

/-- The abstract transport engine (`libsrt_sys`): the result each primitive
returns.  The wrapper is quantified over every such oracle. -/
structure Engine where
  socketNew : SockAddr → Except IOError Socket
  setSendNonblocking : Socket → Bool → Except IOError Unit
  setRecvNonblocking : Socket → Bool → Except IOError Unit
  connect : Socket → SockAddr → Except IOError Unit
  bind : Socket → SockAddr → Except IOError Unit
  listen : Socket → Nat → Except IOError Unit
  accept : Socket → Except IOError (Socket × SockAddr)
  send : Socket → List Nat → Except IOError Nat
  sendVectored : Socket → List (List Nat) → Except IOError Nat
  recv : Socket → Nat → Except IOError Nat
  recvVectored : Socket → List Nat → Except IOError Nat
  localAddr : Socket → Except IOError SockAddr
  peerAddr : Socket → Except IOError SockAddr
  takeError : Socket → Except IOError (Option IOError)

/-- `pub struct Stream { sock: Socket }`. -/
structure Stream where
  sock : Socket
deriving DecidableEq, Repr

/-- `pub struct Listener { sock: Socket }`. -/
structure Listener where
  sock : Socket
deriving DecidableEq, Repr

/-- `pub struct Builder { nonblocking: bool }`. -/
structure Builder where
  nonblocking : Bool
deriving DecidableEq, Repr

/-- `Builder::new()`. -/
def Builder.new : Builder := ⟨false⟩

/-- The `AsSocket` trait: anything that can yield its transport handle. -/
class AsSocket (α : Type) where
  as_socket : α → Socket

instance : AsSocket Stream := ⟨Stream.sock⟩

instance : AsSocket Listener := ⟨Listener.sock⟩

/-- Default method `AsSocket::take_error`, delegating to the engine. -/
def take_error {α : Type} [AsSocket α] (E : Engine) (x : α) :
    Except IOError (Option IOError) :=
  E.takeError (AsSocket.as_socket x)

/-- Default method `Bind::local_addr`, delegating to the engine. -/
def local_addr {α : Type} [AsSocket α] (E : Engine) (x : α) :
    Except IOError SockAddr :=
  E.localAddr (AsSocket.as_socket x)

/-- Default method `Connect::peer_addr`, delegating to the engine. -/
def peer_addr {α : Type} [AsSocket α] (E : Engine) (x : α) :
    Except IOError SockAddr :=
  E.peerAddr (AsSocket.as_socket x)

/-- `Builder::connect`.  Translated from `net.rs` lines 58-76: `sys::init()`,
allocate the handle, then — only if nonblocking — set both directions
nonblocking before connecting and swallow a would-block connect error;
otherwise connect with `?` propagation.  Returns the result and the ordered
trace of engine calls issued. -/
def Builder.connect (b : Builder) (E : Engine) (addr : SockAddr) :
    Except IOError Stream × List EngineCall :=
  match E.socketNew addr with
  | .error e => (.error e, [.init, .socketNew addr])
  | .ok sock =>
    if b.nonblocking then
      match E.setSendNonblocking sock true with
      | .error e =>
        (.error e, [.init, .socketNew addr, .setSendNonblocking sock true])
      | .ok _ =>
        match E.setRecvNonblocking sock true with
        | .error e =>
          (.error e,
            [.init, .socketNew addr, .setSendNonblocking sock true,
              .setRecvNonblocking sock true])
        | .ok _ =>
          match E.connect sock addr with
          | .ok _ =>
            (.ok ⟨sock⟩,
              [.init, .socketNew addr, .setSendNonblocking sock true,
                .setRecvNonblocking sock true, .connect sock addr])
          | .error e =>
            if e.kind = IOErrorKind.wouldBlock then
              (.ok ⟨sock⟩,
                [.init, .socketNew addr, .setSendNonblocking sock true,
                  .setRecvNonblocking sock true, .connect sock addr])
            else
              (.error e,
                [.init, .socketNew addr, .setSendNonblocking sock true,
                  .setRecvNonblocking sock true, .connect sock addr])
    else
      match E.connect sock addr with
      | .ok _ => (.ok ⟨sock⟩, [.init, .socketNew addr, .connect sock addr])
      | .error e => (.error e, [.init, .socketNew addr, .connect sock addr])

/-- `Builder::bind`.  Translated from `net.rs` lines 80-92: `sys::init()`,
allocate, bind, `listen(128)`, and — only if nonblocking — set the receive
direction nonblocking. -/
def Builder.bind (b : Builder) (E : Engine) (addr : SockAddr) :
    Except IOError Listener × List EngineCall :=
  match E.socketNew addr with
  | .error e => (.error e, [.init, .socketNew addr])
  | .ok sock =>
    match E.bind sock addr with
    | .error e => (.error e, [.init, .socketNew addr, .bind sock addr])
    | .ok _ =>
      match E.listen sock 128 with
      | .error e =>
        (.error e,
          [.init, .socketNew addr, .bind sock addr, .listen sock 128])
      | .ok _ =>
        if b.nonblocking then
          match E.setRecvNonblocking sock true with
          | .error e =>
            (.error e,
              [.init, .socketNew addr, .bind sock addr, .listen sock 128,
                .setRecvNonblocking sock true])
          | .ok _ =>
            (.ok ⟨sock⟩,
              [.init, .socketNew addr, .bind sock addr, .listen sock 128,
                .setRecvNonblocking sock true])
        else
          (.ok ⟨sock⟩,
            [.init, .socketNew addr, .bind sock addr, .listen sock 128])

/-- `Builder::accept`.  Translated from `net.rs` lines 95-102: if nonblocking,
set the stream's send then receive direction nonblocking (each with `?`
propagation), then return the stream; otherwise return it untouched. -/
def Builder.accept (b : Builder) (E : Engine) (stream : Stream) :
    Except IOError Stream × List EngineCall :=
  if b.nonblocking then
    match E.setSendNonblocking stream.sock true with
    | .error e => (.error e, [.setSendNonblocking stream.sock true])
    | .ok _ =>
      match E.setRecvNonblocking stream.sock true with
      | .error e =>
        (.error e,
          [.setSendNonblocking stream.sock true,
            .setRecvNonblocking stream.sock true])
      | .ok _ =>
        (.ok stream,
          [.setSendNonblocking stream.sock true,
            .setRecvNonblocking stream.sock true])
  else
    (.ok stream, [])

/-- `Listener::accept`.  Translated from `net.rs` lines 206-209: one engine
`accept` call; on success wrap the fresh handle in a `Stream` and pair it with
the peer address. -/
def Listener.accept (E : Engine) (l : Listener) :
    Except IOError (Stream × SockAddr) × List EngineCall :=
  match E.accept l.sock with
  | .error e => (.error e, [.accept l.sock])
  | .ok (sock, addr) => (.ok (⟨sock⟩, addr), [.accept l.sock])

/-- `<Stream as Read>::read`: delegates to `self.sock.recv(buf)`.  The buffer
is represented by its length. -/
def Stream.read (E : Engine) (s : Stream) (bufLen : Nat) :
    Except IOError Nat :=
  E.recv s.sock bufLen

/-- `<Stream as Read>::read_vectored`: delegates to `recv_vectored`; the
buffers are represented by their lengths. -/
def Stream.read_vectored (E : Engine) (s : Stream) (bufLens : List Nat) :
    Except IOError Nat :=
  E.recvVectored s.sock bufLens

/-- `<Stream as Write>::write`: delegates to `self.sock.send(buf)`. -/
def Stream.write (E : Engine) (s : Stream) (buf : List Nat) :
    Except IOError Nat :=
  E.send s.sock buf

/-- `<Stream as Write>::write_vectored`: delegates to `send_vectored`. -/
def Stream.write_vectored (E : Engine) (s : Stream) (bufs : List (List Nat)) :
    Except IOError Nat :=
  E.sendVectored s.sock bufs

/-- `<Stream as Write>::flush`: the body is `Ok(())`; it does not touch the
engine (it does not even receive one), so its trace is empty. -/
def Stream.flush (_s : Stream) : Except IOError Unit × List EngineCall :=
  (.ok (), [])

/-- `<&Stream as Read>::read`, the borrowed-form impl block (textually its own
impl in the source). -/
def StreamRef.read (E : Engine) (s : Stream) (bufLen : Nat) :
    Except IOError Nat :=
  E.recv s.sock bufLen

/-- `<&Stream as Read>::read_vectored`. -/
def StreamRef.read_vectored (E : Engine) (s : Stream) (bufLens : List Nat) :
    Except IOError Nat :=
  E.recvVectored s.sock bufLens

/-- `<&Stream as Write>::write`. -/
def StreamRef.write (E : Engine) (s : Stream) (buf : List Nat) :
    Except IOError Nat :=
  E.send s.sock buf

/-- `<&Stream as Write>::write_vectored`. -/
def StreamRef.write_vectored (E : Engine) (s : Stream) (bufs : List (List Nat)) :
    Except IOError Nat :=
  E.sendVectored s.sock bufs

/-- `<&Stream as Write>::flush`: also literally `Ok(())`. -/
def StreamRef.flush (_s : Stream) : Except IOError Unit × List EngineCall :=
  (.ok (), [])

/-- The field list produced by `impl fmt::Debug for Stream` (`net.rs` lines
179-193): a `local` field when `local_addr()` is `Ok`, then a `peer` field
when `peer_addr()` is `Ok`; a failing introspection contributes nothing. -/
def Stream.fmtDebug (E : Engine) (s : Stream) : List (String × SockAddr) :=
  (match local_addr E s with
    | .ok addr => [("local", addr)]
    | .error _ => []) ++
  (match peer_addr E s with
    | .ok addr => [("peer", addr)]
    | .error _ => [])

/-- The overall result of `Stream`'s `Debug::fmt`: the `debug_struct` builder
itself introduces no failure (only the output sink could, which is outside
this layer), so formatting returns the field list successfully. -/
def Stream.fmtResult (E : Engine) (s : Stream) :
    Except Unit (List (String × SockAddr)) :=
  .ok (Stream.fmtDebug E s)

/-- Caller-chosen registration identifier (`libsrt_sys::Token`). -/
abbrev Token := Nat

/-- Readiness-interest bit-set (`libsrt_sys::EventKind`); opaque here. -/
abbrev EventKind := Nat

/-- The reusable events buffer: a sequence of (token, kind) pairs. -/
abbrev Events := List (Token × EventKind)

/-- The native multiplexer (`libsrt_sys::Poll`) as an oracle: the result of
each native operation.  `pollOp` consumes the caller's buffer and returns the
readiness count together with the refilled buffer. -/
structure SysPoll where
  registerOp : Socket → Token → EventKind → Except IOError Unit
  reregisterOp : Socket → Token → EventKind → Except IOError Unit
  deregisterOp : Socket → Except IOError Unit
  pollOp : Events → Option Nat → Except IOError (Nat × Events)

/-- `pub struct Poll { poll: sys::Poll }` (field renamed to `sys` because in
Lean the field would clash with the method `Poll.poll`). -/
structure Poll where
  sys : SysPoll

/-- `Poll::new()`: wraps `sys::Poll::new()?`; the argument stands for what the
native constructor returned. -/
def Poll.new (mk : Except IOError SysPoll) : Except IOError Poll :=
  match mk with
  | .ok sp => .ok ⟨sp⟩
  | .error e => .error e

/-- `Poll::register`: delegates to the native register on
`socket.as_socket()`. -/
def Poll.register {α : Type} [AsSocket α] (p : Poll) (socket : α)
    (token : Token) (event : EventKind) : Except IOError Unit :=
  p.sys.registerOp (AsSocket.as_socket socket) token event

/-- `Poll::reregister`. -/
def Poll.reregister {α : Type} [AsSocket α] (p : Poll) (socket : α)
    (token : Token) (event : EventKind) : Except IOError Unit :=
  p.sys.reregisterOp (AsSocket.as_socket socket) token event

/-- `Poll::deregister`. -/
def Poll.deregister {α : Type} [AsSocket α] (p : Poll) (socket : α) :
    Except IOError Unit :=
  p.sys.deregisterOp (AsSocket.as_socket socket)

/-- `Poll::poll`: delegates to the native poll with the buffer and timeout
unchanged. -/
def Poll.poll (p : Poll) (events : Events) (timeout : Option Nat) :
    Except IOError (Nat × Events) :=
  p.sys.pollOp events timeout

/-- A concrete engine on which every primitive succeeds; used to instantiate
hypotheses in witnesses. -/
def engOk : Engine where
  socketNew := fun _ => .ok 7
  setSendNonblocking := fun _ _ => .ok ()
  setRecvNonblocking := fun _ _ => .ok ()
  connect := fun _ _ => .ok ()
  bind := fun _ _ => .ok ()
  listen := fun _ _ => .ok ()
  accept := fun _ => .ok (9, 3)
  send := fun _ buf => .ok buf.length
  sendVectored := fun _ bufs => .ok bufs.length
  recv := fun _ n => .ok n
  recvVectored := fun _ ls => .ok ls.length
  localAddr := fun _ => .ok 1
  peerAddr := fun _ => .ok 2
  takeError := fun _ => .ok none

/-- Like `engOk` but `connect` fails with the would-block condition. -/
def engWB : Engine :=
  { engOk with connect := fun _ _ => .error ⟨IOErrorKind.wouldBlock, 0⟩ }

/-- Like `engOk` but `connect` fails with a non-would-block error. -/
def engConnErr : Engine :=
  { engOk with connect := fun _ _ => .error ⟨IOErrorKind.other 11, 3⟩ }

/-- Like `engOk` but setting the send direction nonblocking fails. -/
def engSendErr : Engine :=
  { engOk with setSendNonblocking := fun _ _ => .error ⟨IOErrorKind.other 5, 1⟩ }

/-- Like `engOk` but setting the receive direction nonblocking fails. -/
def engRecvErr : Engine :=
  { engOk with setRecvNonblocking := fun _ _ => .error ⟨IOErrorKind.other 6, 2⟩ }

/-- A concrete native multiplexer on which every operation succeeds. -/
def sysPollOk : SysPoll where
  registerOp := fun _ _ _ => .ok ()
  reregisterOp := fun _ _ _ => .ok ()
  deregisterOp := fun _ => .ok ()
  pollOp := fun evs _ => .ok (evs.length, evs)

/-- Helper: the engine-call trace of `Builder.bind` is always one of five
explicit prefixes of the full call sequence, and the nonblocking-only
`setRecvNonblocking` call appears only when the builder is nonblocking. -/
theorem bind_trace_shape (b : Builder) (E : Engine) (A : SockAddr) :
    (Builder.bind b E A).2 = [.init, .socketNew A] ∨
    (∃ sock, E.socketNew A = .ok sock ∧
      ((Builder.bind b E A).2 = [.init, .socketNew A, .bind sock A] ∨
       (Builder.bind b E A).2 =
         [.init, .socketNew A, .bind sock A, .listen sock 128] ∨
       (b.nonblocking = true ∧
         (Builder.bind b E A).2 =
           [.init, .socketNew A, .bind sock A, .listen sock 128,
             .setRecvNonblocking sock true]))) := by
  cases hn : E.socketNew A with
  | error e => left; simp [Builder.bind, hn]
  | ok sock =>
    right
    refine ⟨sock, rfl, ?_⟩
    cases hbd : E.bind sock A with
    | error e => left; simp [Builder.bind, hn, hbd]
    | ok u =>
      cases hl : E.listen sock 128 with
      | error e => right; left; simp [Builder.bind, hn, hbd, hl]
      | ok v =>
        cases hnb : b.nonblocking with
        | false => right; left; simp [Builder.bind, hn, hbd, hl, hnb]
        | true =>
          right; right
          refine ⟨rfl, ?_⟩
          cases hr : E.setRecvNonblocking sock true <;>
            simp [Builder.bind, hn, hbd, hl, hnb, hr]

/-- C1: with `nonblocking = true`, `Builder::connect A` sets the send and the
receive direction of the fresh handle nonblocking before issuing the engine
connect (the trace equation fixes the exact order); if the engine connect then
fails with the would-block kind the error is swallowed and a `Stream` wrapping
the handle is returned, while any other connect error is returned unchanged. -/
theorem connect_nonblocking_swallows_wouldblock
    (E : Engine) (A : SockAddr) (sock : Socket)
    (hnew : E.socketNew A = .ok sock)
    (hsend : E.setSendNonblocking sock true = .ok ())
    (hrecv : E.setRecvNonblocking sock true = .ok ()) :
    (Builder.connect ⟨true⟩ E A).2 =
      [EngineCall.init, EngineCall.socketNew A,
        EngineCall.setSendNonblocking sock true,
        EngineCall.setRecvNonblocking sock true, EngineCall.connect sock A] ∧
    (E.connect sock A = .ok () →
      (Builder.connect ⟨true⟩ E A).1 = .ok ⟨sock⟩) ∧
    (∀ e, E.connect sock A = .error e → e.kind = IOErrorKind.wouldBlock →
      (Builder.connect ⟨true⟩ E A).1 = .ok ⟨sock⟩) ∧
    (∀ e, E.connect sock A = .error e → e.kind ≠ IOErrorKind.wouldBlock →
      (Builder.connect ⟨true⟩ E A).1 = .error e) := by
  refine ⟨?_, ?_, ?_, ?_⟩
  · cases hc : E.connect sock A with
    | ok u => simp [Builder.connect, hnew, hsend, hrecv, hc]
    | error e =>
      by_cases hk : e.kind = IOErrorKind.wouldBlock <;>
        simp [Builder.connect, hnew, hsend, hrecv, hc, hk]
  · intro hc; simp [Builder.connect, hnew, hsend, hrecv, hc]
  · intro e hc hk; simp [Builder.connect, hnew, hsend, hrecv, hc, hk]
  · intro e hc hk; simp [Builder.connect, hnew, hsend, hrecv, hc, hk]

/-- C1 witness: on a concrete engine whose connect reports would-block, the
nonblocking connect still returns a stream wrapping the fresh handle. -/
theorem connect_nonblocking_swallows_wouldblock_witness :
    (Builder.connect ⟨true⟩ engWB 5).1 = Except.ok ⟨7⟩ :=
  (connect_nonblocking_swallows_wouldblock engWB 5 7 rfl rfl rfl).2.2.1
    ⟨IOErrorKind.wouldBlock, 0⟩ rfl rfl

/-- C4: with `nonblocking = false`, `Builder::connect A` never toggles either
nonblocking flag (no such call ever appears in the trace) and propagates every
engine connect error unchanged, the would-block condition included. -/
theorem connect_blocking_propagates (E : Engine) (A : SockAddr) :
    (∀ s bb,
      EngineCall.setSendNonblocking s bb ∉ (Builder.connect ⟨false⟩ E A).2) ∧
    (∀ s bb,
      EngineCall.setRecvNonblocking s bb ∉ (Builder.connect ⟨false⟩ E A).2) ∧
    (∀ sock, E.socketNew A = .ok sock →
      (E.connect sock A = .ok () →
        Builder.connect ⟨false⟩ E A =
          (.ok ⟨sock⟩, [.init, .socketNew A, .connect sock A])) ∧
      (∀ e, E.connect sock A = .error e →
        Builder.connect ⟨false⟩ E A =
          (.error e, [.init, .socketNew A, .connect sock A]))) := by
  refine ⟨?_, ?_, ?_⟩
  · intro s bb
    cases hn : E.socketNew A with
    | error e => simp [Builder.connect, hn]
    | ok sock => cases hc : E.connect sock A <;> simp [Builder.connect, hn, hc]
  · intro s bb
    cases hn : E.socketNew A with
    | error e => simp [Builder.connect, hn]
    | ok sock => cases hc : E.connect sock A <;> simp [Builder.connect, hn, hc]
  · intro sock hn
    constructor
    · intro hc; simp [Builder.connect, hn, hc]
    · intro e hc; simp [Builder.connect, hn, hc]

/-- C4 witness: on a concrete engine whose connect reports would-block, the
blocking-mode connect surfaces that very error, trace ending at connect. -/
theorem connect_blocking_propagates_witness :
    Builder.connect ⟨false⟩ engWB 5 =
      (Except.error ⟨IOErrorKind.wouldBlock, 0⟩,
        [EngineCall.init, EngineCall.socketNew 5, EngineCall.connect 7 5]) :=
  ((connect_blocking_propagates engWB 5).2.2 7 rfl).2
    ⟨IOErrorKind.wouldBlock, 0⟩ rfl

/-- C2: `Builder::bind A` never toggles the send direction, every listen call
it issues carries backlog exactly 128, the receive direction is toggled only
when the builder is nonblocking, and on success it returns a `Listener`
owning the allocated handle, with the trace showing allocate, bind,
listen 128, and (iff nonblocking) the receive-direction toggle. -/
theorem builder_bind_spec (b : Builder) (E : Engine) (A : SockAddr) :
    (∀ s bb, EngineCall.setSendNonblocking s bb ∉ (Builder.bind b E A).2) ∧
    (∀ s n, EngineCall.listen s n ∈ (Builder.bind b E A).2 → n = 128) ∧
    (b.nonblocking = false →
      ∀ s bb, EngineCall.setRecvNonblocking s bb ∉ (Builder.bind b E A).2) ∧
    (∀ sock, E.socketNew A = .ok sock → E.bind sock A = .ok () →
      E.listen sock 128 = .ok () →
      (b.nonblocking = false →
        Builder.bind b E A =
          (.ok ⟨sock⟩,
            [.init, .socketNew A, .bind sock A, .listen sock 128])) ∧
      (b.nonblocking = true → E.setRecvNonblocking sock true = .ok () →
        Builder.bind b E A =
          (.ok ⟨sock⟩,
            [.init, .socketNew A, .bind sock A, .listen sock 128,
              .setRecvNonblocking sock true]))) := by
  refine ⟨?_, ?_, ?_, ?_⟩
  · intro s bb
    rcases bind_trace_shape b E A with h | ⟨sock, hn, h | h | ⟨hnb, h⟩⟩ <;>
      rw [h] <;> simp
  · intro s n hmem
    rcases bind_trace_shape b E A with h | ⟨sock, hn, h | h | ⟨hnb, h⟩⟩ <;>
      rw [h] at hmem <;> simp at hmem <;> try exact hmem.2
  · intro hfalse s bb
    rcases bind_trace_shape b E A with h | ⟨sock, hn, h | h | ⟨hnb, h⟩⟩
    · rw [h]; simp
    · rw [h]; simp
    · rw [h]; simp
    · rw [hfalse] at hnb; exact absurd hnb (by simp)
  · intro sock hn hbd hl
    constructor
    · intro hnb; simp [Builder.bind, hn, hbd, hl, hnb]
    · intro hnb hr; simp [Builder.bind, hn, hbd, hl, hnb, hr]

/-- C2 witness: a nonblocking bind on the all-success engine returns the
listener on handle 7 with the full five-call trace. -/
theorem builder_bind_spec_witness :
    Builder.bind ⟨true⟩ engOk 5 =
      (Except.ok ⟨7⟩,
        [EngineCall.init, EngineCall.socketNew 5, EngineCall.bind 7 5,
          EngineCall.listen 7 128, EngineCall.setRecvNonblocking 7 true]) :=
  ((builder_bind_spec ⟨true⟩ engOk 5).2.2.2 7 rfl rfl rfl).2 rfl rfl

/-- C3: `Builder::accept` in blocking mode returns the very stream it was
given with an empty engine-call trace; in nonblocking mode it sets both
directions of the stream's handle nonblocking and returns the same stream. -/
theorem builder_accept_spec (E : Engine) (s : Stream) :
    Builder.accept ⟨false⟩ E s = (.ok s, []) ∧
    (E.setSendNonblocking s.sock true = .ok () →
      E.setRecvNonblocking s.sock true = .ok () →
      Builder.accept ⟨true⟩ E s =
        (.ok s, [.setSendNonblocking s.sock true,
          .setRecvNonblocking s.sock true])) := by
  constructor
  · simp [Builder.accept]
  · intro hs hr; simp [Builder.accept, hs, hr]

/-- C3 witness: the nonblocking case on the all-success engine. -/
theorem builder_accept_spec_witness :
    Builder.accept ⟨true⟩ engOk ⟨7⟩ =
      (Except.ok ⟨7⟩,
        [EngineCall.setSendNonblocking 7 true,
          EngineCall.setRecvNonblocking 7 true]) :=
  (builder_accept_spec engOk ⟨7⟩).2 rfl rfl

/-- C5: `Listener::accept` issues exactly one engine call (the accept) — so it
never changes the accepted handle's blocking mode — and returns on success the
stream wrapping the fresh handle paired with the peer address, on failure the
engine's error unchanged. -/
theorem listener_accept_spec (E : Engine) (l : Listener) :
    (Listener.accept E l).2 = [EngineCall.accept l.sock] ∧
    (∀ sock addr, E.accept l.sock = .ok (sock, addr) →
      (Listener.accept E l).1 = .ok (⟨sock⟩, addr)) ∧
    (∀ e, E.accept l.sock = .error e → (Listener.accept E l).1 = .error e) := by
  refine ⟨?_, ?_, ?_⟩
  · cases ha : E.accept l.sock with
    | ok p => cases p; simp [Listener.accept, ha]
    | error e => simp [Listener.accept, ha]
  · intro sock addr ha; simp [Listener.accept, ha]
  · intro e ha; simp [Listener.accept, ha]

/-- C5 witness: on the all-success engine, accepting on listener 7 yields the
stream on fresh handle 9 and peer address 3. -/
theorem listener_accept_spec_witness :
    (Listener.accept engOk ⟨7⟩).1 = Except.ok (⟨9⟩, 3) :=
  (listener_accept_spec engOk ⟨7⟩).2.1 9 3 rfl

/-- C6: every `Poll` operation is extensionally equal to the corresponding
native-multiplexer operation applied to the socket's underlying handle with
token, interest, buffer and timeout passed through unchanged — success and
error alike, with no retry or local state; and `Poll::new` forwards the
native constructor's outcome unchanged. -/
theorem poll_delegates (p : Poll) {α : Type} [AsSocket α] (socket : α)
    (token : Token) (event : EventKind) (events : Events)
    (timeout : Option Nat) (mk : Except IOError SysPoll) :
    Poll.register p socket token event =
      p.sys.registerOp (AsSocket.as_socket socket) token event ∧
    Poll.reregister p socket token event =
      p.sys.reregisterOp (AsSocket.as_socket socket) token event ∧
    Poll.deregister p socket =
      p.sys.deregisterOp (AsSocket.as_socket socket) ∧
    Poll.poll p events timeout = p.sys.pollOp events timeout ∧
    (∀ e, mk = .error e → Poll.new mk = .error e) ∧
    (∀ sp, mk = .ok sp → Poll.new mk = .ok ⟨sp⟩) := by
  refine ⟨rfl, rfl, rfl, rfl, ?_, ?_⟩
  · intro e he; simp [Poll.new, he]
  · intro sp hsp; simp [Poll.new, hsp]

/-- C6 witness: registering a concrete stream on a concrete all-success
native multiplexer succeeds, and `Poll::new` wraps a successful native
constructor. -/
theorem poll_delegates_witness :
    Poll.register ⟨sysPollOk⟩ (⟨7⟩ : Stream) 1 2 = Except.ok () ∧
    Poll.new (Except.ok sysPollOk) = Except.ok ⟨sysPollOk⟩ :=
  ⟨(poll_delegates ⟨sysPollOk⟩ (⟨7⟩ : Stream) 1 2 [] none
      (Except.ok sysPollOk)).1.trans rfl,
   (poll_delegates ⟨sysPollOk⟩ (⟨7⟩ : Stream) 1 2 [] none
      (Except.ok sysPollOk)).2.2.2.2.2 sysPollOk rfl⟩

/-- C7: `flush` on both the owned and the borrowed stream form returns
`Ok(())` with an empty engine-call trace: a total no-op. -/
theorem flush_noop (s : Stream) :
    Stream.flush s = (Except.ok (), ([] : List EngineCall)) ∧
    StreamRef.flush s = (Except.ok (), ([] : List EngineCall)) :=
  ⟨rfl, rfl⟩

/-- C8: the owned and the borrowed impls of read, read_vectored, write and
write_vectored are extensionally equal, each being the corresponding engine
primitive applied to the stream's handle with the same arguments. -/
theorem stream_rw_owned_borrowed_agree (E : Engine) (s : Stream) (n : Nat)
    (lens : List Nat) (buf : List Nat) (bufs : List (List Nat)) :
    (Stream.read E s n = StreamRef.read E s n ∧
      Stream.read E s n = E.recv s.sock n) ∧
    (Stream.read_vectored E s lens = StreamRef.read_vectored E s lens ∧
      Stream.read_vectored E s lens = E.recvVectored s.sock lens) ∧
    (Stream.write E s buf = StreamRef.write E s buf ∧
      Stream.write E s buf = E.send s.sock buf) ∧
    (Stream.write_vectored E s bufs = StreamRef.write_vectored E s bufs ∧
      Stream.write_vectored E s bufs = E.sendVectored s.sock bufs) :=
  ⟨⟨rfl, rfl⟩, ⟨rfl, rfl⟩, ⟨rfl, rfl⟩, ⟨rfl, rfl⟩⟩

/-- C9: `Stream`'s Debug formatting always succeeds, and its field list
contains a `local` entry exactly when `local_addr` is `Ok` and a `peer` entry
exactly when `peer_addr` is `Ok`. -/
theorem stream_debug_fields (E : Engine) (s : Stream) :
    (∃ fields, Stream.fmtResult E s = .ok fields) ∧
    ((∃ a, ("local", a) ∈ Stream.fmtDebug E s) ↔
      ∃ a, local_addr E s = .ok a) ∧
    ((∃ a, ("peer", a) ∈ Stream.fmtDebug E s) ↔
      ∃ a, peer_addr E s = .ok a) := by
  refine ⟨⟨Stream.fmtDebug E s, rfl⟩, ?_, ?_⟩ <;>
    cases hl : local_addr E s <;> cases hp : peer_addr E s <;>
      simp [Stream.fmtDebug, hl, hp]

/-- C10: when a nonblocking `Builder::accept` fails while switching the send
direction, that error is returned with the receive direction never attempted
(the trace is exactly the one send-toggle call); when the send toggle
succeeded and the receive toggle fails, the error is returned with the send
toggle already performed — the operation is not atomic.  In both failure
cases the result is an error carrying no stream: the consumed stream is not
handed back (its drop then releases the handle, per the ownership model). -/
theorem builder_accept_failure_nonatomic (E : Engine) (s : Stream) :
    (∀ e, E.setSendNonblocking s.sock true = .error e →
      Builder.accept ⟨true⟩ E s =
        (.error e, [EngineCall.setSendNonblocking s.sock true])) ∧
    (∀ e, E.setSendNonblocking s.sock true = .ok () →
      E.setRecvNonblocking s.sock true = .error e →
      Builder.accept ⟨true⟩ E s =
        (.error e, [EngineCall.setSendNonblocking s.sock true,
          EngineCall.setRecvNonblocking s.sock true])) := by
  constructor
  · intro e he; simp [Builder.accept, he]
  · intro e hs hr; simp [Builder.accept, hs, hr]

/-- C10 witness: on a concrete engine whose receive-direction toggle fails,
the nonblocking accept of stream 7 loses the stream, returning the error with
the send toggle already in the trace. -/
theorem builder_accept_failure_nonatomic_witness :
    Builder.accept ⟨true⟩ engRecvErr ⟨7⟩ =
      (Except.error ⟨IOErrorKind.other 6, 2⟩,
        [EngineCall.setSendNonblocking 7 true,
          EngineCall.setRecvNonblocking 7 true]) :=
  (builder_accept_failure_nonatomic engRecvErr ⟨7⟩).2
    ⟨IOErrorKind.other 6, 2⟩ rfl rfl

end LibSrt
